import Mathlib

/-!
Verification of the jaffle_shop_dlt repository core:
the paginated-fetch iterator (`get_paginated_data`, present in all three
source files) and the staged pipeline-run harness (`run_pipeline`, present
in `jaffle_shop_pipeline.py` and `jaffle_shop_pipeline_optimized.py`).

The HTTP client, the JSON decoder and the ETL framework are external
collaborators: they are modelled by their interfaces (a server function
mapping a URL and page number to a response, and success/failure flags for
the extract/normalize/load stage calls).  Logging is observability only and
is not modelled.
-/

/-- A JSON value as produced by `response.json()` in Python
(`dict` / `list` / `str` / number / `bool` / `None`).  Numbers are modelled
as integers; the only number whose truthiness matters is zero. -/
inductive Json where
  | null
  | bool (b : Bool)
  | num (n : Int)
  | str (s : String)
  | arr (elts : List Json)
  | obj (fields : List (String × Json))
deriving Inhabited

/-- Python truthiness of a JSON value: `not data` is true exactly for
`None`, `False`, `0`, `""`, `[]` and `{}`. -/
def falsy : Json → Bool
  | .null => true
  | .bool b => !b
  | .num n => n == 0
  | .str s => s.length == 0
  | .arr elts => elts.isEmpty
  | .obj fields => fields.isEmpty

/-- Whether `len(data)` is defined for this JSON value.  In Python, `len`
is defined for `str`, `list` and `dict` but raises `TypeError` on numbers,
booleans and `None`. -/
def hasLen : Json → Bool
  | .str _ => true
  | .arr _ => true
  | .obj _ => true
  | _ => false

/-- The value of `len(data)` where it is defined (and `0` elsewhere; the
embedding only consults `jlen` under `hasLen`). -/
def jlen : Json → Nat
  | .str s => s.length
  | .arr elts => elts.length
  | .obj fields => fields.length
  | _ => 0

/-- An HTTP response as surfaced to the pagination loop by the HTTP client:
a status code and the result of parsing the body as JSON (`none` when the
body is not valid JSON, in which case `response.json()` raises). -/
structure Resp where
  status : Nat
  body : Option Json

/-- The body of a response when it parsed (`Json.null` as an unused
default otherwise). -/
def Resp.bodyD (r : Resp) : Json := r.body.getD Json.null

/-- A success (2xx) status.  Used in theorem hypotheses to describe the
pages the loop proceeds past; a success response in particular does not
raise (`is2xx_not_raisesHTTPError`). -/
def is2xx (status : Nat) : Bool := 200 ≤ status && status < 300

/-- `response.raise_for_status()` raises `HTTPError` exactly for client
and server error statuses (`400 ≤ status < 600`).  Other surfaced
statuses — 1xx, a 3xx not consumed by the HTTP client's redirect
handling, or an out-of-range code such as 999 — do not raise, and the
loop proceeds to parse the body. -/
def raisesHTTPError (status : Nat) : Bool := 400 ≤ status && status < 600

/-- A success response never trips `raise_for_status`. -/
theorem is2xx_not_raisesHTTPError (status : Nat) (h : is2xx status = true) :
    raisesHTTPError status = false := by
  simp only [is2xx, Bool.and_eq_true, decide_eq_true_eq] at h
  simp only [raisesHTTPError, Bool.and_eq_false_iff, decide_eq_false_iff_not]
  omega

/-- The server as seen through `requests.get(url, params={'page': page})`:
a function from the request target and page number to the response. -/
def Server : Type := String → Nat → Resp

/-- How one run of the pagination loop ended. -/
inductive FetchOutcome where
  | done
  | httpError (page status : Nat)
  | parseError (page : Nat)
  | typeError (page : Nat)
  | outOfFuel
deriving Repr, DecidableEq

/-- The observable behaviour of one run of the pagination loop: the
`(url, page)` pairs requested in order, the pages yielded to the consumer
in order, and how the loop ended. -/
structure FetchTrace where
  requests : List (String × Nat)
  pages : List Json
  outcome : FetchOutcome

namespace JaffleShopPipeline

/-- `BASE_URL` from src/jaffle_shop_pipeline.py line 21. -/
def BASE_URL : String := "https://jaffle-shop.scalevector.ai/api/v1"

/-- The `while True` loop of `get_paginated_data`
(src/jaffle_shop_pipeline.py lines 28-39), as a fuel-indexed function of
the current page counter.  Each iteration requests the page, raises via
`raise_for_status` on a client/server error status (400–599), parses the
body, yields the page, and then breaks when `not data or len(data) == 0`;
`not data` short-circuits, so `len(data)` is evaluated (raising
`TypeError` on length-less values) only when `data` is truthy.  Otherwise
the counter increments by one. -/
def fetchLoop (server : Server) (url : String) : Nat → Nat → FetchTrace
  | 0, _page => { requests := [], pages := [], outcome := .outOfFuel }
  | fuel + 1, page =>
    let response := server url page
    if raisesHTTPError response.status then
      { requests := [(url, page)], pages := [], outcome := .httpError page response.status }
    else
      match response.body with
      | none => { requests := [(url, page)], pages := [], outcome := .parseError page }
      | some data =>
        if falsy data then
          { requests := [(url, page)], pages := [data], outcome := .done }
        else if !hasLen data then
          { requests := [(url, page)], pages := [data], outcome := .typeError page }
        else if jlen data == 0 then
          { requests := [(url, page)], pages := [data], outcome := .done }
        else
          let rest := fetchLoop server url fuel (page + 1)
          { requests := (url, page) :: rest.requests,
            pages := data :: rest.pages,
            outcome := rest.outcome }

/-- `get_paginated_data(endpoint)` from src/jaffle_shop_pipeline.py lines
23-39: form the request target from the base URL and run the pagination
loop starting at page 1. -/
def get_paginated_data (endpoint : String) (server : Server) (fuel : Nat) : FetchTrace :=
  fetchLoop server (BASE_URL ++ "/" ++ endpoint) fuel 1

end JaffleShopPipeline

namespace JaffleShopPipelineOptimized

/-- `BASE_URL` from src/jaffle_shop_pipeline_optimized.py line 40. -/
def BASE_URL : String := "https://jaffle-shop.scalevector.ai/api/v1"

/-- The `while True` loop of `get_paginated_data`
(src/jaffle_shop_pipeline_optimized.py lines 48-59); the loop body is the
same as in src/jaffle_shop_pipeline.py. -/
def fetchLoop (server : Server) (url : String) : Nat → Nat → FetchTrace
  | 0, _page => { requests := [], pages := [], outcome := .outOfFuel }
  | fuel + 1, page =>
    let response := server url page
    if raisesHTTPError response.status then
      { requests := [(url, page)], pages := [], outcome := .httpError page response.status }
    else
      match response.body with
      | none => { requests := [(url, page)], pages := [], outcome := .parseError page }
      | some data =>
        if falsy data then
          { requests := [(url, page)], pages := [data], outcome := .done }
        else if !hasLen data then
          { requests := [(url, page)], pages := [data], outcome := .typeError page }
        else if jlen data == 0 then
          { requests := [(url, page)], pages := [data], outcome := .done }
        else
          let rest := fetchLoop server url fuel (page + 1)
          { requests := (url, page) :: rest.requests,
            pages := data :: rest.pages,
            outcome := rest.outcome }

/-- `get_paginated_data(endpoint)` from
src/jaffle_shop_pipeline_optimized.py lines 42-59. -/
def get_paginated_data (endpoint : String) (server : Server) (fuel : Nat) : FetchTrace :=
  fetchLoop server (BASE_URL ++ "/" ++ endpoint) fuel 1

end JaffleShopPipelineOptimized

namespace DeployPipeline

/-- `BASE_URL` from src/deploy_pipeline.py line 4. -/
def BASE_URL : String := "https://jaffle-shop.scalevector.ai/api/v1"

/-- The `while True` loop of `get_paginated_data`
(src/deploy_pipeline.py lines 9-16); the loop body is the same as in
src/jaffle_shop_pipeline.py minus the completion log line. -/
def fetchLoop (server : Server) (url : String) : Nat → Nat → FetchTrace
  | 0, _page => { requests := [], pages := [], outcome := .outOfFuel }
  | fuel + 1, page =>
    let response := server url page
    if raisesHTTPError response.status then
      { requests := [(url, page)], pages := [], outcome := .httpError page response.status }
    else
      match response.body with
      | none => { requests := [(url, page)], pages := [], outcome := .parseError page }
      | some data =>
        if falsy data then
          { requests := [(url, page)], pages := [data], outcome := .done }
        else if !hasLen data then
          { requests := [(url, page)], pages := [data], outcome := .typeError page }
        else if jlen data == 0 then
          { requests := [(url, page)], pages := [data], outcome := .done }
        else
          let rest := fetchLoop server url fuel (page + 1)
          { requests := (url, page) :: rest.requests,
            pages := data :: rest.pages,
            outcome := rest.outcome }

/-- `get_paginated_data(endpoint)` from src/deploy_pipeline.py lines
6-16. -/
def get_paginated_data (endpoint : String) (server : Server) (fuel : Nat) : FetchTrace :=
  fetchLoop server (BASE_URL ++ "/" ++ endpoint) fuel 1

end DeployPipeline

/-- One of the three pipeline stages. -/
inductive Stage where
  | extract
  | normalize
  | load
deriving Repr, DecidableEq

/-- The per-stage timings recorded in `stats["stages"]`: each stage's
`time_seconds` entry.  `time.time()` readings are modelled as rationals. -/
structure StageTimes where
  extract_seconds : ℚ
  normalize_seconds : ℚ
  load_seconds : ℚ
deriving Repr, DecidableEq

/-- The `stats` record built by `run_pipeline`: pipeline name, the
ISO timestamp from `datetime.now()`, the per-stage timings and
`total_time_seconds`.  The optimized variant's `config` echo of
environment variables and the framework `pipeline_trace` are opaque
pass-through data and are not modelled. -/
structure RunStats where
  pipeline_name : String
  timestamp : String
  stages : StageTimes
  total_time_seconds : ℚ
deriving Repr, DecidableEq

/-- The environment one `run_pipeline` call executes in: the readings of
successive `time.time()` calls (indexed by call position), the
`datetime.now()` timestamp, and whether each framework stage call
(`pipeline.extract` / `pipeline.normalize` / `pipeline.load`) returns
normally (`true`) or raises (`false`). -/
structure HarnessEnv where
  clock : Nat → ℚ
  now : String
  extractOk : Bool
  normalizeOk : Bool
  loadOk : Bool

/-- The observable behaviour of one `run_pipeline` call: the framework
stage calls issued in order, and either the final `stats` record or the
stage whose uncaught exception aborted the run. -/
structure RunOutcome where
  calls : List Stage
  result : Except Stage RunStats

namespace JaffleShopPipeline

/-- `run_pipeline()` from src/jaffle_shop_pipeline.py lines 62-120.
Six `time.time()` readings `clock 0 .. clock 5` in program order:
`extract_start`, end of extract, `normalize_start`, end of normalize,
`load_start`, end of load measurement.  Note the load stage: lines 99-106
take the two readings and record `load_time` but contain no
`pipeline.load()` call.  An exception from a stage call propagates
uncaught, ending the run at that point. -/
def run_pipeline (env : HarnessEnv) : RunOutcome :=
  let extract_start := env.clock 0
  if !env.extractOk then
    { calls := [.extract], result := .error .extract }
  else
    let extract_time := env.clock 1 - extract_start
    let normalize_start := env.clock 2
    if !env.normalizeOk then
      { calls := [.extract, .normalize], result := .error .normalize }
    else
      let normalize_time := env.clock 3 - normalize_start
      let load_start := env.clock 4
      let load_time := env.clock 5 - load_start
      { calls := [.extract, .normalize],
        result := .ok
          { pipeline_name := "jaffle_shop",
            timestamp := env.now,
            stages :=
              { extract_seconds := extract_time,
                normalize_seconds := normalize_time,
                load_seconds := load_time },
            total_time_seconds := extract_time + normalize_time + load_time } }

end JaffleShopPipeline

namespace JaffleShopPipelineOptimized

/-- `run_pipeline()` from src/jaffle_shop_pipeline_optimized.py lines
82-148.  Same shape as the base variant, except that between the
`load_start` and end-of-load readings it actually calls `pipeline.load()`
(line 129 of the file). -/
def run_pipeline (env : HarnessEnv) : RunOutcome :=
  let extract_start := env.clock 0
  if !env.extractOk then
    { calls := [.extract], result := .error .extract }
  else
    let extract_time := env.clock 1 - extract_start
    let normalize_start := env.clock 2
    if !env.normalizeOk then
      { calls := [.extract, .normalize], result := .error .normalize }
    else
      let normalize_time := env.clock 3 - normalize_start
      let load_start := env.clock 4
      if !env.loadOk then
        { calls := [.extract, .normalize, .load], result := .error .load }
      else
        let load_time := env.clock 5 - load_start
        { calls := [.extract, .normalize, .load],
          result := .ok
            { pipeline_name := "jaffle_shop_optimized",
              timestamp := env.now,
              stages :=
                { extract_seconds := extract_time,
                  normalize_seconds := normalize_time,
                  load_seconds := load_time },
              total_time_seconds := extract_time + normalize_time + load_time } }

end JaffleShopPipelineOptimized

/-- A response that keeps the pagination loop going: success status, body
parsed, page truthy and sized (so the loop yields it and increments the
counter). -/
def nonEmptyOk (r : Resp) : Bool :=
  is2xx r.status &&
    (match r.body with
     | some d => !falsy d && hasLen d
     | none => false)

/-- For sized values (`str` / `arr` / `obj`), truthiness is exactly
non-zero length, so a truthy sized page never trips `len(data) == 0`. -/
theorem jlen_beq_zero_eq_false (d : Json) (hl : hasLen d = true)
    (hf : falsy d = false) : (jlen d == 0) = false := by
  cases d <;> simp_all [hasLen, falsy, jlen, List.isEmpty_iff_length_eq_zero]

/-- Variant loops are the same function: the optimized file's loop body is
identical to the base file's. -/
theorem optimized_fetchLoop_eq :
    JaffleShopPipelineOptimized.fetchLoop = JaffleShopPipeline.fetchLoop := by
  funext server url fuel page
  induction fuel generalizing page with
  | zero => rfl
  | succ n ih =>
    simp only [JaffleShopPipelineOptimized.fetchLoop, JaffleShopPipeline.fetchLoop, ih]

/-- Variant loops are the same function: the deploy file's loop body is
identical to the base file's. -/
theorem deploy_fetchLoop_eq :
    DeployPipeline.fetchLoop = JaffleShopPipeline.fetchLoop := by
  funext server url fuel page
  induction fuel generalizing page with
  | zero => rfl
  | succ n ih =>
    simp only [DeployPipeline.fetchLoop, JaffleShopPipeline.fetchLoop, ih]

namespace JaffleShopPipeline

/-- Unfolding one iteration on a page the loop continues past. -/
theorem fetchLoop_step_good (server : Server) (url : String) (fuel page : Nat)
    (h : nonEmptyOk (server url page) = true) :
    fetchLoop server url (fuel + 1) page =
      { requests := (url, page) :: (fetchLoop server url fuel (page + 1)).requests,
        pages := (server url page).bodyD :: (fetchLoop server url fuel (page + 1)).pages,
        outcome := (fetchLoop server url fuel (page + 1)).outcome } := by
  unfold nonEmptyOk at h
  rcases hb : (server url page).body with _ | d
  · rw [hb] at h; simp at h
  · rw [hb] at h
    simp only [Bool.and_eq_true, Bool.not_eq_true'] at h
    obtain ⟨h2xx, hfal, hlen⟩ := h
    have hnr := is2xx_not_raisesHTTPError _ h2xx
    simp [fetchLoop, hb, hnr, hfal, hlen, jlen_beq_zero_eq_false d hlen hfal, Resp.bodyD]

/-- Running the loop across a block of `n` consecutive pages the server
answers with non-empty sized pages: all `n` pages are requested in
increasing order, yielded in order, and the loop then continues from page
`start + n` on the remaining fuel. -/
theorem fetchLoop_good_prefix (server : Server) (url : String) :
    ∀ (n start fuel : Nat),
    (∀ k, k < n → nonEmptyOk (server url (start + k)) = true) →
    fetchLoop server url (n + fuel) start =
      { requests :=
          (List.range' start n).map (fun p => (url, p)) ++
            (fetchLoop server url fuel (start + n)).requests,
        pages :=
          (List.range' start n).map (fun p => (server url p).bodyD) ++
            (fetchLoop server url fuel (start + n)).pages,
        outcome := (fetchLoop server url fuel (start + n)).outcome } := by
  intro n
  induction n with
  | zero => intro start fuel _; simp
  | succ m ih =>
    intro start fuel h
    have hstep : nonEmptyOk (server url start) = true := by
      simpa using h 0 (Nat.succ_pos m)
    have hrec := ih (start + 1) fuel (fun k hk => by
      have := h (k + 1) (Nat.succ_lt_succ hk)
      simpa [Nat.add_assoc, Nat.add_comm 1 k] using this)
    have hfuel : m + 1 + fuel = (m + fuel) + 1 := by omega
    rw [hfuel, fetchLoop_step_good server url (m + fuel) start hstep, hrec]
    have hstart : start + (m + 1) = start + 1 + m := by omega
    simp [List.range'_succ, hstart]

end JaffleShopPipeline

/-- The three `get_paginated_data` functions are the same page-sequence
producer (deploy variant vs base variant). -/
theorem deploy_get_paginated_data_eq (endpoint : String) (server : Server) (fuel : Nat) :
    DeployPipeline.get_paginated_data endpoint server fuel =
      JaffleShopPipeline.get_paginated_data endpoint server fuel := by
  simp only [DeployPipeline.get_paginated_data, JaffleShopPipeline.get_paginated_data,
    deploy_fetchLoop_eq]
  rfl

/-- The three `get_paginated_data` functions are the same page-sequence
producer (optimized variant vs base variant). -/
theorem optimized_get_paginated_data_eq (endpoint : String) (server : Server) (fuel : Nat) :
    JaffleShopPipelineOptimized.get_paginated_data endpoint server fuel =
      JaffleShopPipeline.get_paginated_data endpoint server fuel := by
  simp only [JaffleShopPipelineOptimized.get_paginated_data,
    JaffleShopPipeline.get_paginated_data, optimized_fetchLoop_eq]
  rfl

namespace JaffleShopPipeline

/-- One loop iteration at `page`, factored out of the recursion: what the
iteration requests, yields and decides, given the behaviour `rest` of the
remaining iterations. -/
def fetchStep (server : Server) (url : String) (page : Nat) (rest : FetchTrace) : FetchTrace :=
  let response := server url page
  if raisesHTTPError response.status then
    { requests := [(url, page)], pages := [], outcome := .httpError page response.status }
  else
    match response.body with
    | none => { requests := [(url, page)], pages := [], outcome := .parseError page }
    | some data =>
      if falsy data then
        { requests := [(url, page)], pages := [data], outcome := .done }
      else if !hasLen data then
        { requests := [(url, page)], pages := [data], outcome := .typeError page }
      else if jlen data == 0 then
        { requests := [(url, page)], pages := [data], outcome := .done }
      else
        { requests := (url, page) :: rest.requests,
          pages := data :: rest.pages,
          outcome := rest.outcome }

/-- Unfolding exactly one loop iteration. -/
theorem fetchLoop_succ (server : Server) (url : String) (fuel page : Nat) :
    fetchLoop server url (fuel + 1) page =
      fetchStep server url page (fetchLoop server url fuel (page + 1)) := rfl

/-- One extra unit of fuel does not change a loop run that already
finished (its outcome is not `outOfFuel`). -/
theorem fetchLoop_fuel_succ (server : Server) (url : String) :
    ∀ fuel page, (fetchLoop server url fuel page).outcome ≠ FetchOutcome.outOfFuel →
    fetchLoop server url (fuel + 1) page = fetchLoop server url fuel page := by
  intro fuel
  induction fuel with
  | zero => intro page h; exact absurd rfl h
  | succ n ih =>
    intro page h
    rw [fetchLoop_succ]
    conv_rhs => rw [fetchLoop_succ]
    by_cases h2 : raisesHTTPError (server url page).status
    · simp [fetchStep, h2]
    · rcases hb : (server url page).body with _ | d
      · simp [fetchStep, h2, hb]
      · by_cases hf : falsy d
        · simp [fetchStep, h2, hb, hf]
        · by_cases hl : hasLen d
          · by_cases hz : (jlen d == 0) = true
            · simp [fetchStep, h2, hb, hf, hl, hz]
            · have hrest : (fetchLoop server url n (page + 1)).outcome ≠ FetchOutcome.outOfFuel := by
                rw [fetchLoop_succ] at h
                simpa [fetchStep, h2, hb, hf, hl, hz] using h
              rw [ih (page + 1) hrest]
          · simp [fetchStep, h2, hb, hf, hl]

/-- A finished loop run is unchanged by any amount of extra fuel. -/
theorem fetchLoop_fuel_stable (server : Server) (url : String) (N : Nat) (page : Nat)
    (hdone : (fetchLoop server url N page).outcome ≠ FetchOutcome.outOfFuel) :
    ∀ fuel, N ≤ fuel → fetchLoop server url fuel page = fetchLoop server url N page := by
  intro fuel hfuel
  induction fuel, hfuel using Nat.le_induction with
  | base => rfl
  | succ m hm ih =>
    rw [fetchLoop_fuel_succ server url m page (by rw [ih]; exact hdone), ih]

/-- If every response is a success with a parsed body and some page `N` in
range is falsy, the loop does not run out of fuel once the fuel covers
page `N`. -/
theorem fetchLoop_no_outOfFuel (server : Server) (url : String) (N : Nat)
    (hall : ∀ p, is2xx (server url p).status = true ∧ ((server url p).body).isSome = true)
    (hfal : falsy ((server url N).bodyD) = true) :
    ∀ fuel start, start ≤ N → N < start + fuel →
      (fetchLoop server url fuel start).outcome ≠ FetchOutcome.outOfFuel := by
  intro fuel
  induction fuel with
  | zero => intro start h1 h2; omega
  | succ n ih =>
    intro start h1 h2
    rw [fetchLoop_succ]
    obtain ⟨h2xx, hsome⟩ := hall start
    have hnr := is2xx_not_raisesHTTPError _ h2xx
    rcases hb : (server url start).body with _ | d
    · rw [hb] at hsome; simp at hsome
    · by_cases hf : falsy d
      · simp [fetchStep, hnr, hb, hf]
      · by_cases hl : hasLen d
        · have hz := jlen_beq_zero_eq_false d hl (by simpa using hf)
          have hne : start ≠ N := by
            intro he
            subst he
            rw [Resp.bodyD, hb] at hfal
            exact hf (by simpa using hfal)
          have htail := ih (start + 1) (by omega) (by omega)
          simpa [fetchStep, hnr, hb, hf, hl, hz] using htail
        · simp [fetchStep, hnr, hb, hf, hl]
end JaffleShopPipeline

/-- C1: for every endpoint, if the server answers pages `1..n` with
non-empty pages and page `n + 1` with an empty/falsy page, the fetcher
requests exactly pages `1, 2, ..., n + 1`, yields exactly `n + 1` pages —
the terminal empty page included — and stops (outcome `done`, and the
trace is unchanged by any extra fuel).  For `[P1(non-empty), P2(non-empty),
P3(empty)]` this is `n = 2`: three pages yielded, pages 1, 2, 3 requested.
Holds for both files the claim cites (base and deploy variants). -/
theorem c1_terminates_one_page_after_first_empty
    (endpoint : String) (server : Server) (n : Nat) (d : Json)
    (hpre : ∀ k, k < n →
      nonEmptyOk (server (JaffleShopPipeline.BASE_URL ++ "/" ++ endpoint) (1 + k)) = true)
    (h2xx : is2xx (server (JaffleShopPipeline.BASE_URL ++ "/" ++ endpoint) (n + 1)).status = true)
    (hbody : (server (JaffleShopPipeline.BASE_URL ++ "/" ++ endpoint) (n + 1)).body = some d)
    (hfal : falsy d = true) :
    ∀ fuel, n + 1 ≤ fuel →
      JaffleShopPipeline.get_paginated_data endpoint server fuel =
        { requests := (List.range' 1 (n + 1)).map
            (fun p => (JaffleShopPipeline.BASE_URL ++ "/" ++ endpoint, p)),
          pages := (List.range' 1 n).map
            (fun p => (server (JaffleShopPipeline.BASE_URL ++ "/" ++ endpoint) p).bodyD) ++ [d],
          outcome := FetchOutcome.done } ∧
      DeployPipeline.get_paginated_data endpoint server fuel =
        JaffleShopPipeline.get_paginated_data endpoint server fuel := by
  intro fuel hfuel
  refine ⟨?_, deploy_get_paginated_data_eq endpoint server fuel⟩
  have hlast :
      JaffleShopPipeline.fetchLoop server (JaffleShopPipeline.BASE_URL ++ "/" ++ endpoint) 1 (1 + n) =
        { requests := [(JaffleShopPipeline.BASE_URL ++ "/" ++ endpoint, n + 1)],
          pages := [d], outcome := FetchOutcome.done } := by
    rw [JaffleShopPipeline.fetchLoop_succ]
    rw [Nat.add_comm 1 n]
    simp [JaffleShopPipeline.fetchStep, is2xx_not_raisesHTTPError _ h2xx, hbody, hfal]
  have hbase :
      JaffleShopPipeline.get_paginated_data endpoint server (n + 1) =
        { requests := (List.range' 1 (n + 1)).map
            (fun p => (JaffleShopPipeline.BASE_URL ++ "/" ++ endpoint, p)),
          pages := (List.range' 1 n).map
            (fun p => (server (JaffleShopPipeline.BASE_URL ++ "/" ++ endpoint) p).bodyD) ++ [d],
          outcome := FetchOutcome.done } := by
    show JaffleShopPipeline.fetchLoop server _ (n + 1) 1 = _
    rw [JaffleShopPipeline.fetchLoop_good_prefix server _ n 1 1 hpre, hlast]
    have hb : (server (JaffleShopPipeline.BASE_URL ++ "/" ++ endpoint) (n + 1)).bodyD = d := by
      rw [Resp.bodyD, hbody]; rfl
    simp [List.range'_concat, Nat.add_comm 1 n, hb]
  have hstable :
      JaffleShopPipeline.get_paginated_data endpoint server fuel =
        JaffleShopPipeline.get_paginated_data endpoint server (n + 1) := by
    show JaffleShopPipeline.fetchLoop server _ fuel 1 = JaffleShopPipeline.fetchLoop server _ (n + 1) 1
    refine JaffleShopPipeline.fetchLoop_fuel_stable server _ (n + 1) 1 ?_ fuel hfuel
    show (JaffleShopPipeline.get_paginated_data endpoint server (n + 1)).outcome ≠ _
    rw [hbase]
    simp
  rw [hstable, hbase]

/-- C4 (amended): for every endpoint, if the server answers pages `1..n`
with non-empty pages and page `n + 1` with a client- or server-error
status (400–599, the statuses `raise_for_status` raises on), the fetcher
fails with an HTTP error at page `n + 1`: page `n + 1` is requested but
not yielded, the yielded pages are exactly the `n` earlier ones, no page
beyond `n + 1` is ever requested and page `n + 1` is requested exactly
once (no retry, no backoff).  The claim's blanket "non-2xx" condition is
refuted by `c4_counterexample`: a surfaced non-2xx status outside
400–599 does not raise. -/
theorem c4_error_status_fails_immediately
    (endpoint : String) (server : Server) (n : Nat)
    (hpre : ∀ k, k < n →
      nonEmptyOk (server (JaffleShopPipeline.BASE_URL ++ "/" ++ endpoint) (1 + k)) = true)
    (hbad : raisesHTTPError
      (server (JaffleShopPipeline.BASE_URL ++ "/" ++ endpoint) (n + 1)).status = true) :
    ∀ fuel, n + 1 ≤ fuel →
      JaffleShopPipeline.get_paginated_data endpoint server fuel =
        { requests := (List.range' 1 (n + 1)).map
            (fun p => (JaffleShopPipeline.BASE_URL ++ "/" ++ endpoint, p)),
          pages := (List.range' 1 n).map
            (fun p => (server (JaffleShopPipeline.BASE_URL ++ "/" ++ endpoint) p).bodyD),
          outcome := FetchOutcome.httpError (n + 1)
            (server (JaffleShopPipeline.BASE_URL ++ "/" ++ endpoint) (n + 1)).status } := by
  intro fuel hfuel
  have hlast :
      JaffleShopPipeline.fetchLoop server (JaffleShopPipeline.BASE_URL ++ "/" ++ endpoint) 1 (1 + n) =
        { requests := [(JaffleShopPipeline.BASE_URL ++ "/" ++ endpoint, n + 1)],
          pages := [],
          outcome := FetchOutcome.httpError (n + 1)
            (server (JaffleShopPipeline.BASE_URL ++ "/" ++ endpoint) (n + 1)).status } := by
    rw [JaffleShopPipeline.fetchLoop_succ]
    rw [Nat.add_comm 1 n]
    simp [JaffleShopPipeline.fetchStep, hbad]
  have hbase :
      JaffleShopPipeline.get_paginated_data endpoint server (n + 1) =
        { requests := (List.range' 1 (n + 1)).map
            (fun p => (JaffleShopPipeline.BASE_URL ++ "/" ++ endpoint, p)),
          pages := (List.range' 1 n).map
            (fun p => (server (JaffleShopPipeline.BASE_URL ++ "/" ++ endpoint) p).bodyD),
          outcome := FetchOutcome.httpError (n + 1)
            (server (JaffleShopPipeline.BASE_URL ++ "/" ++ endpoint) (n + 1)).status } := by
    show JaffleShopPipeline.fetchLoop server _ (n + 1) 1 = _
    rw [JaffleShopPipeline.fetchLoop_good_prefix server _ n 1 1 hpre, hlast]
    simp [List.range'_concat, Nat.add_comm 1 n]
  have hstable :
      JaffleShopPipeline.get_paginated_data endpoint server fuel =
        JaffleShopPipeline.get_paginated_data endpoint server (n + 1) := by
    show JaffleShopPipeline.fetchLoop server _ fuel 1 = JaffleShopPipeline.fetchLoop server _ (n + 1) 1
    refine JaffleShopPipeline.fetchLoop_fuel_stable server _ (n + 1) 1 ?_ fuel hfuel
    show (JaffleShopPipeline.get_paginated_data endpoint server (n + 1)).outcome ≠ _
    rw [hbase]
    simp
  rw [hstable, hbase]

namespace JaffleShopPipeline

/-- The requests any loop run issues are consecutive page numbers starting
at the initial counter, all against the same target. -/
theorem fetchLoop_requests_range (server : Server) (url : String) :
    ∀ fuel page,
      (fetchLoop server url fuel page).requests =
        (List.range' page (fetchLoop server url fuel page).requests.length).map
          (fun p => (url, p)) := by
  intro fuel
  induction fuel with
  | zero => intro page; rfl
  | succ n ih =>
    intro page
    rw [fetchLoop_succ]
    by_cases h2 : raisesHTTPError (server url page).status
    · simp [fetchStep, h2]
    · rcases hb : (server url page).body with _ | d
      · simp [fetchStep, h2, hb]
      · by_cases hf : falsy d
        · simp [fetchStep, h2, hb, hf]
        · by_cases hl : hasLen d
          · by_cases hz : (jlen d == 0) = true
            · simp [fetchStep, h2, hb, hf, hl, hz]
            · have hcons :
                  fetchStep server url page (fetchLoop server url n (page + 1)) =
                    { requests := (url, page) :: (fetchLoop server url n (page + 1)).requests,
                      pages := d :: (fetchLoop server url n (page + 1)).pages,
                      outcome := (fetchLoop server url n (page + 1)).outcome } := by
                simp [fetchStep, h2, hb, hf, hl, hz]
              rw [hcons]
              simp only [List.length_cons, List.range'_succ, List.map_cons]
              exact congrArg (List.cons (url, page)) (ih (page + 1))
          · simp [fetchStep, h2, hb, hf, hl]

end JaffleShopPipeline

/-- C5: for every endpoint, server behaviour and fuel, the GET requests
issued by `get_paginated_data` are exactly the pages `1, 2, 3, ...` in
strictly increasing order with no repeats or skips, each against the
target formed from the base URL and the endpoint. -/
theorem c5_requests_are_consecutive_from_one
    (endpoint : String) (server : Server) (fuel : Nat) :
    (JaffleShopPipeline.get_paginated_data endpoint server fuel).requests =
      (List.range' 1
        (JaffleShopPipeline.get_paginated_data endpoint server fuel).requests.length).map
        (fun p => (JaffleShopPipeline.BASE_URL ++ "/" ++ endpoint, p)) :=
  JaffleShopPipeline.fetchLoop_requests_range server _ fuel 1

/-- C6: for every endpoint, if every response is a success with a parsed
JSON body and the server answers some page `N ≥ 1` with an empty/falsy
page, the pagination loop terminates: once the fuel covers page `N` the
run does not end in `outOfFuel` and the trace no longer depends on the
fuel.  Holds for both files the claim cites (base and deploy variants). -/
theorem c6_fetch_terminates
    (endpoint : String) (server : Server) (N : Nat)
    (hall : ∀ p, is2xx (server (JaffleShopPipeline.BASE_URL ++ "/" ++ endpoint) p).status = true ∧
      ((server (JaffleShopPipeline.BASE_URL ++ "/" ++ endpoint) p).body).isSome = true)
    (hN : 1 ≤ N)
    (hfal : falsy ((server (JaffleShopPipeline.BASE_URL ++ "/" ++ endpoint) N).bodyD) = true) :
    ∀ fuel, N ≤ fuel →
      (JaffleShopPipeline.get_paginated_data endpoint server fuel).outcome ≠
        FetchOutcome.outOfFuel ∧
      JaffleShopPipeline.get_paginated_data endpoint server fuel =
        JaffleShopPipeline.get_paginated_data endpoint server N ∧
      (DeployPipeline.get_paginated_data endpoint server fuel).outcome ≠
        FetchOutcome.outOfFuel := by
  intro fuel hfuel
  have hterm :=
    JaffleShopPipeline.fetchLoop_no_outOfFuel server
      (JaffleShopPipeline.BASE_URL ++ "/" ++ endpoint) N hall hfal fuel 1 hN (by omega)
  have htermN :=
    JaffleShopPipeline.fetchLoop_no_outOfFuel server
      (JaffleShopPipeline.BASE_URL ++ "/" ++ endpoint) N hall hfal N 1 hN (by omega)
  refine ⟨hterm, ?_, ?_⟩
  · exact JaffleShopPipeline.fetchLoop_fuel_stable server _ N 1 htermN fuel hfuel
  · rw [deploy_get_paginated_data_eq]
    exact hterm

/-- C9: for every endpoint, after `n` non-empty pages, if the response
body of page `n + 1` parses to a JSON value that is truthy but has no
length (e.g. a number or `true`), the fetcher yields that value and then
fails with `TypeError` at the `len(data)` check; conversely if that body
is falsy — including falsy values with no length, such as the number `0` —
the `or` short-circuits, `len` is never evaluated, and the loop terminates
cleanly (`done`, no error). -/
theorem c9_truthy_without_len_raises_TypeError
    (endpoint : String) (server : Server) (n : Nat) (d : Json)
    (hpre : ∀ k, k < n →
      nonEmptyOk (server (JaffleShopPipeline.BASE_URL ++ "/" ++ endpoint) (1 + k)) = true)
    (h2xx : is2xx (server (JaffleShopPipeline.BASE_URL ++ "/" ++ endpoint) (n + 1)).status = true)
    (hbody : (server (JaffleShopPipeline.BASE_URL ++ "/" ++ endpoint) (n + 1)).body = some d) :
    (falsy d = false → hasLen d = false →
      JaffleShopPipeline.get_paginated_data endpoint server (n + 1) =
        { requests := (List.range' 1 (n + 1)).map
            (fun p => (JaffleShopPipeline.BASE_URL ++ "/" ++ endpoint, p)),
          pages := (List.range' 1 n).map
            (fun p => (server (JaffleShopPipeline.BASE_URL ++ "/" ++ endpoint) p).bodyD) ++ [d],
          outcome := FetchOutcome.typeError (n + 1) }) ∧
    (falsy d = true →
      JaffleShopPipeline.get_paginated_data endpoint server (n + 1) =
        { requests := (List.range' 1 (n + 1)).map
            (fun p => (JaffleShopPipeline.BASE_URL ++ "/" ++ endpoint, p)),
          pages := (List.range' 1 n).map
            (fun p => (server (JaffleShopPipeline.BASE_URL ++ "/" ++ endpoint) p).bodyD) ++ [d],
          outcome := FetchOutcome.done }) := by
  have hb : (server (JaffleShopPipeline.BASE_URL ++ "/" ++ endpoint) (n + 1)).bodyD = d := by
    rw [Resp.bodyD, hbody]; rfl
  constructor
  · intro hfal hlen
    have hlast :
        JaffleShopPipeline.fetchLoop server
          (JaffleShopPipeline.BASE_URL ++ "/" ++ endpoint) 1 (1 + n) =
          { requests := [(JaffleShopPipeline.BASE_URL ++ "/" ++ endpoint, n + 1)],
            pages := [d], outcome := FetchOutcome.typeError (n + 1) } := by
      rw [JaffleShopPipeline.fetchLoop_succ, Nat.add_comm 1 n]
      simp [JaffleShopPipeline.fetchStep, is2xx_not_raisesHTTPError _ h2xx, hbody, hfal, hlen]
    show JaffleShopPipeline.fetchLoop server _ (n + 1) 1 = _
    rw [JaffleShopPipeline.fetchLoop_good_prefix server _ n 1 1 hpre, hlast]
    simp [List.range'_concat, Nat.add_comm 1 n]
  · intro hfal
    have hlast :
        JaffleShopPipeline.fetchLoop server
          (JaffleShopPipeline.BASE_URL ++ "/" ++ endpoint) 1 (1 + n) =
          { requests := [(JaffleShopPipeline.BASE_URL ++ "/" ++ endpoint, n + 1)],
            pages := [d], outcome := FetchOutcome.done } := by
      rw [JaffleShopPipeline.fetchLoop_succ, Nat.add_comm 1 n]
      simp [JaffleShopPipeline.fetchStep, is2xx_not_raisesHTTPError _ h2xx, hbody, hfal]
    show JaffleShopPipeline.fetchLoop server _ (n + 1) 1 = _
    rw [JaffleShopPipeline.fetchLoop_good_prefix server _ n 1 1 hpre, hlast]
    simp [List.range'_concat, Nat.add_comm 1 n]

/-- C10: the three `get_paginated_data` functions (base, optimized and
deploy files) are extensionally equivalent page-sequence producers: for
the same endpoint and the same server behaviour they issue the same
requests in the same order, yield the same pages, and end the same way. -/
theorem c10_three_variants_extensionally_equal
    (endpoint : String) (server : Server) (fuel : Nat) :
    JaffleShopPipeline.get_paginated_data endpoint server fuel =
      JaffleShopPipelineOptimized.get_paginated_data endpoint server fuel ∧
    JaffleShopPipelineOptimized.get_paginated_data endpoint server fuel =
      DeployPipeline.get_paginated_data endpoint server fuel :=
  ⟨(optimized_get_paginated_data_eq endpoint server fuel).symm,
    (optimized_get_paginated_data_eq endpoint server fuel).trans
      (deploy_get_paginated_data_eq endpoint server fuel).symm⟩

/-- A concrete run environment: consecutive `time.time()` readings one
second apart (so there is a non-zero gap between the stages) and all
stage calls succeeding. -/
def gapClockEnv : HarnessEnv :=
  { clock := fun k => (k : ℚ), now := "2024-01-01T00:00:00",
    extractOk := true, normalizeOk := true, loadOk := true }

/-- `gapClockEnv` with the extract stage call raising. -/
def failExtractEnv : HarnessEnv := { gapClockEnv with extractOk := false }

/-- `gapClockEnv` with the normalize stage call raising. -/
def failNormalizeEnv : HarnessEnv := { gapClockEnv with normalizeOk := false }

/-- The stage calls a run has issued when stage `s` is the one that
failed: the stages in forward order up to and including `s`. -/
def callsUntil : Stage → List Stage
  | .extract => [.extract]
  | .normalize => [.extract, .normalize]
  | .load => [.extract, .normalize, .load]

/-- C2 (code bug evidence): in the base harness variant the load stage is
never invoked — on a fully successful run its stage-call sequence is
`[extract, normalize]`, with no load call — even though the run still
records a load duration (here `clock 5 - clock 4 = 1`) and succeeds.  The
optimized variant does invoke load as an explicit stage call. -/
theorem c2_base_variant_never_invokes_load :
    (JaffleShopPipeline.run_pipeline gapClockEnv).calls = [Stage.extract, Stage.normalize] ∧
    Stage.load ∉ (JaffleShopPipeline.run_pipeline gapClockEnv).calls ∧
    (JaffleShopPipeline.run_pipeline gapClockEnv).result = Except.ok
      { pipeline_name := "jaffle_shop", timestamp := "2024-01-01T00:00:00",
        stages := { extract_seconds := 1, normalize_seconds := 1, load_seconds := 1 },
        total_time_seconds := 3 } ∧
    (JaffleShopPipelineOptimized.run_pipeline gapClockEnv).calls =
      [Stage.extract, Stage.normalize, Stage.load] := by
  refine ⟨rfl, by decide, ?_, rfl⟩
  show Except.ok _ = Except.ok _
  norm_num [gapClockEnv]

/-- C3: after a successful run, `total_time_seconds` is the sum of the
three individually measured stage durations — each a difference of the
two clock readings around that stage call — in both harness variants; it
is not the elapsed time of the whole call: with the six readings one
second apart the recorded total is 3 while end-to-end elapsed time
(`clock 5 - clock 0`) is 5. -/
theorem c3_total_is_sum_of_stage_durations (env : HarnessEnv)
    (he : env.extractOk = true) (hn : env.normalizeOk = true) (hl : env.loadOk = true) :
    ((JaffleShopPipeline.run_pipeline env).result = Except.ok
      { pipeline_name := "jaffle_shop", timestamp := env.now,
        stages := { extract_seconds := env.clock 1 - env.clock 0,
                    normalize_seconds := env.clock 3 - env.clock 2,
                    load_seconds := env.clock 5 - env.clock 4 },
        total_time_seconds := (env.clock 1 - env.clock 0) + (env.clock 3 - env.clock 2) +
          (env.clock 5 - env.clock 4) }) ∧
    ((JaffleShopPipelineOptimized.run_pipeline env).result = Except.ok
      { pipeline_name := "jaffle_shop_optimized", timestamp := env.now,
        stages := { extract_seconds := env.clock 1 - env.clock 0,
                    normalize_seconds := env.clock 3 - env.clock 2,
                    load_seconds := env.clock 5 - env.clock 4 },
        total_time_seconds := (env.clock 1 - env.clock 0) + (env.clock 3 - env.clock 2) +
          (env.clock 5 - env.clock 4) }) ∧
    ((JaffleShopPipeline.run_pipeline gapClockEnv).result = Except.ok
      { pipeline_name := "jaffle_shop", timestamp := "2024-01-01T00:00:00",
        stages := { extract_seconds := 1, normalize_seconds := 1, load_seconds := 1 },
        total_time_seconds := 3 } ∧
      gapClockEnv.clock 5 - gapClockEnv.clock 0 = 5 ∧ (3 : ℚ) ≠ 5) := by
  refine ⟨?_, ?_, ?_, ?_, by norm_num⟩
  · simp [JaffleShopPipeline.run_pipeline, he, hn]
  · simp [JaffleShopPipelineOptimized.run_pipeline, he, hn, hl]
  · show Except.ok _ = Except.ok _
    norm_num [gapClockEnv]
  · norm_num [gapClockEnv]

set_option linter.unreachableTactic false in
set_option linter.unusedTactic false in
/-- C7: in the optimized harness, stages run in the single forward order
extract, normalize, load: the call sequence is exactly the forward prefix
determined by the first failing stage (no stage skipped, repeated or
reordered), the run succeeds exactly when all three stage calls succeed,
and a failure leaves the call sequence stopped at the failing stage — the
run goes directly to the terminal failed state. -/
theorem c7_single_forward_stage_order (env : HarnessEnv) :
    ((JaffleShopPipelineOptimized.run_pipeline env).calls =
      if env.extractOk then
        if env.normalizeOk then [Stage.extract, Stage.normalize, Stage.load]
        else [Stage.extract, Stage.normalize]
      else [Stage.extract]) ∧
    ((∃ st, (JaffleShopPipelineOptimized.run_pipeline env).result = Except.ok st) ↔
      env.extractOk = true ∧ env.normalizeOk = true ∧ env.loadOk = true) ∧
    (∀ s, (JaffleShopPipelineOptimized.run_pipeline env).result = Except.error s →
      (JaffleShopPipelineOptimized.run_pipeline env).calls = callsUntil s) := by
  cases he : env.extractOk <;> cases hn : env.normalizeOk <;> cases hl : env.loadOk <;>
    refine ⟨by simp [JaffleShopPipelineOptimized.run_pipeline, he, hn, hl], ?_, ?_⟩ <;>
    simp [JaffleShopPipelineOptimized.run_pipeline, he, hn, hl, callsUntil] <;>
    rintro rfl <;> simp [callsUntil]

/-- C8: in both harness variants, when a stage call raises, the error
propagates uncaught and aborts the run at that stage: the run's result is
that stage's error, the call sequence stops at the failing stage with each
stage invoked at most once (no retry, no recovery), and no later stage
runs.  (In the base variant the load stage is never invoked, so only
extract or normalize can raise there.) -/
theorem c8_stage_failure_aborts_run (env : HarnessEnv) :
    (env.extractOk = false →
      JaffleShopPipeline.run_pipeline env =
        { calls := [Stage.extract], result := Except.error Stage.extract } ∧
      JaffleShopPipelineOptimized.run_pipeline env =
        { calls := [Stage.extract], result := Except.error Stage.extract }) ∧
    (env.extractOk = true → env.normalizeOk = false →
      JaffleShopPipeline.run_pipeline env =
        { calls := [Stage.extract, Stage.normalize], result := Except.error Stage.normalize } ∧
      JaffleShopPipelineOptimized.run_pipeline env =
        { calls := [Stage.extract, Stage.normalize], result := Except.error Stage.normalize }) ∧
    (env.extractOk = true → env.normalizeOk = true → env.loadOk = false →
      JaffleShopPipelineOptimized.run_pipeline env =
        { calls := [Stage.extract, Stage.normalize, Stage.load],
          result := Except.error Stage.load }) := by
  refine ⟨fun he => ?_, fun he hn => ?_, fun he hn hl => ?_⟩
  · constructor <;>
      simp [JaffleShopPipeline.run_pipeline, JaffleShopPipelineOptimized.run_pipeline, he]
  · constructor <;>
      simp [JaffleShopPipeline.run_pipeline, JaffleShopPipelineOptimized.run_pipeline, he, hn]
  · simp [JaffleShopPipelineOptimized.run_pipeline, he, hn, hl]

/-- Mock server for the `[P1(non-empty), P2(non-empty), P3(empty)]`
scenario: pages 1 and 2 hold one record each, every later page is the
empty array. -/
def pagedServer3 : Server := fun _ p =>
  if p ≤ 2 then
    { status := 200, body := some (Json.arr [Json.obj [("id", Json.num (Int.ofNat p))]]) }
  else
    { status := 200, body := some (Json.arr []) }

/-- Mock server answering page 1 with one record, then 404 Not Found. -/
def badStatusServer : Server := fun _ p =>
  if p = 1 then { status := 200, body := some (Json.arr [Json.num 1]) }
  else { status := 404, body := none }

/-- Mock server whose every page is the empty array. -/
def allEmptyServer : Server := fun _ _ => { status := 200, body := some (Json.arr []) }

/-- Mock server whose every page body is the JSON number 5 (truthy, no
length). -/
def numberBodyServer : Server := fun _ _ => { status := 200, body := some (Json.num 5) }

/-- Mock server whose every page body is the JSON number 0 (falsy, no
length). -/
def zeroBodyServer : Server := fun _ _ => { status := 200, body := some (Json.num 0) }

/-- Witness for C1 at the claim's own scenario (`n = 2`, pages 1 and 2
non-empty, page 3 empty). -/
theorem c1_witness :
    JaffleShopPipeline.get_paginated_data "customers" pagedServer3 3 =
      { requests := (List.range' 1 3).map
          (fun p => (JaffleShopPipeline.BASE_URL ++ "/" ++ "customers", p)),
        pages := (List.range' 1 2).map
          (fun p => (pagedServer3 (JaffleShopPipeline.BASE_URL ++ "/" ++ "customers") p).bodyD) ++
            [Json.arr []],
        outcome := FetchOutcome.done } ∧
    DeployPipeline.get_paginated_data "customers" pagedServer3 3 =
      JaffleShopPipeline.get_paginated_data "customers" pagedServer3 3 :=
  c1_terminates_one_page_after_first_empty "customers" pagedServer3 2 (Json.arr [])
    (by decide) (by decide) rfl rfl 3 (by decide)

/-- Witness for C4 (amended) at a concrete scenario: one non-empty page,
then a 404 at page 2. -/
theorem c4_witness :
    JaffleShopPipeline.get_paginated_data "customers" badStatusServer 2 =
      { requests := (List.range' 1 2).map
          (fun p => (JaffleShopPipeline.BASE_URL ++ "/" ++ "customers", p)),
        pages := (List.range' 1 1).map
          (fun p => (badStatusServer (JaffleShopPipeline.BASE_URL ++ "/" ++ "customers") p).bodyD),
        outcome := FetchOutcome.httpError 2
          (badStatusServer (JaffleShopPipeline.BASE_URL ++ "/" ++ "customers") 2).status } :=
  c4_error_status_fails_immediately "customers" badStatusServer 1 (by decide) rfl 2 (by decide)

/-- Mock server answering every page with status 999 — a non-2xx status
that is not a 4xx/5xx, so `raise_for_status` does not raise — and a JSON
body: one record on page 1, the empty array afterwards. -/
def status999Server : Server := fun _ p =>
  if p = 1 then { status := 999, body := some (Json.arr [Json.num 1]) }
  else { status := 999, body := some (Json.arr []) }

/-- Counterexample to C4 as stated: page 1 carries the non-success status
999, yet the fetch sequence does not fail with an HTTP error — page 1 is
yielded, page 2 is requested, and the run ends `done` — because
`raise_for_status` raises only for statuses 400–599. -/
theorem c4_counterexample :
    is2xx (status999Server (JaffleShopPipeline.BASE_URL ++ "/" ++ "customers") 1).status = false ∧
    raisesHTTPError
      (status999Server (JaffleShopPipeline.BASE_URL ++ "/" ++ "customers") 1).status = false ∧
    JaffleShopPipeline.get_paginated_data "customers" status999Server 2 =
      { requests := [(JaffleShopPipeline.BASE_URL ++ "/" ++ "customers", 1),
                     (JaffleShopPipeline.BASE_URL ++ "/" ++ "customers", 2)],
        pages := [Json.arr [Json.num 1], Json.arr []],
        outcome := FetchOutcome.done } :=
  ⟨rfl, rfl, rfl⟩

/-- Witness for C6 at a concrete scenario: every page is the empty array,
so the loop terminates at page 1 however much fuel it is given. -/
theorem c6_witness :
    (JaffleShopPipeline.get_paginated_data "orders" allEmptyServer 4).outcome ≠
      FetchOutcome.outOfFuel ∧
    JaffleShopPipeline.get_paginated_data "orders" allEmptyServer 4 =
      JaffleShopPipeline.get_paginated_data "orders" allEmptyServer 1 ∧
    (DeployPipeline.get_paginated_data "orders" allEmptyServer 4).outcome ≠
      FetchOutcome.outOfFuel :=
  c6_fetch_terminates "orders" allEmptyServer 1 (fun _ => ⟨rfl, rfl⟩) (by decide) rfl 4
    (by decide)

/-- Witness for C9 at concrete scenarios: a body of `5` (truthy, no
length) yields the value and then fails with `TypeError`; a body of `0`
(falsy, no length) terminates cleanly, `len` never being evaluated. -/
theorem c9_witness :
    JaffleShopPipeline.get_paginated_data "customers" numberBodyServer 1 =
      { requests := (List.range' 1 1).map
          (fun p => (JaffleShopPipeline.BASE_URL ++ "/" ++ "customers", p)),
        pages := (List.range' 1 0).map
          (fun p => (numberBodyServer (JaffleShopPipeline.BASE_URL ++ "/" ++ "customers") p).bodyD) ++
            [Json.num 5],
        outcome := FetchOutcome.typeError 1 } ∧
    JaffleShopPipeline.get_paginated_data "customers" zeroBodyServer 1 =
      { requests := (List.range' 1 1).map
          (fun p => (JaffleShopPipeline.BASE_URL ++ "/" ++ "customers", p)),
        pages := (List.range' 1 0).map
          (fun p => (zeroBodyServer (JaffleShopPipeline.BASE_URL ++ "/" ++ "customers") p).bodyD) ++
            [Json.num 0],
        outcome := FetchOutcome.done } :=
  ⟨(c9_truthy_without_len_raises_TypeError "customers" numberBodyServer 0 (Json.num 5)
      (by decide) rfl rfl).1 rfl rfl,
   (c9_truthy_without_len_raises_TypeError "customers" zeroBodyServer 0 (Json.num 0)
      (by decide) rfl rfl).2 rfl⟩

/-- Witness for C3 at the concrete gap-clock environment. -/
theorem c3_witness :
    (JaffleShopPipeline.run_pipeline gapClockEnv).result = Except.ok
      { pipeline_name := "jaffle_shop", timestamp := gapClockEnv.now,
        stages := { extract_seconds := gapClockEnv.clock 1 - gapClockEnv.clock 0,
                    normalize_seconds := gapClockEnv.clock 3 - gapClockEnv.clock 2,
                    load_seconds := gapClockEnv.clock 5 - gapClockEnv.clock 4 },
        total_time_seconds := (gapClockEnv.clock 1 - gapClockEnv.clock 0) +
          (gapClockEnv.clock 3 - gapClockEnv.clock 2) +
          (gapClockEnv.clock 5 - gapClockEnv.clock 4) } :=
  (c3_total_is_sum_of_stage_durations gapClockEnv rfl rfl rfl).1

/-- Witness for C7: a fully successful run issues all three stages in
order, and a run whose normalize call raises stops at normalize. -/
theorem c7_witness :
    (JaffleShopPipelineOptimized.run_pipeline gapClockEnv).calls =
      [Stage.extract, Stage.normalize, Stage.load] ∧
    (JaffleShopPipelineOptimized.run_pipeline failNormalizeEnv).calls =
      callsUntil Stage.normalize := by
  constructor
  · have h := (c7_single_forward_stage_order gapClockEnv).1
    simpa using h
  · exact (c7_single_forward_stage_order failNormalizeEnv).2.2 Stage.normalize rfl

/-- Witness for C8: a run whose extract call raises aborts at extract in
both variants. -/
theorem c8_witness :
    JaffleShopPipeline.run_pipeline failExtractEnv =
      { calls := [Stage.extract], result := Except.error Stage.extract } ∧
    JaffleShopPipelineOptimized.run_pipeline failExtractEnv =
      { calls := [Stage.extract], result := Except.error Stage.extract } :=
  (c8_stage_failure_aborts_run failExtractEnv).1 rfl
